import Mathlib

/-!
Verification of the HTTP client core of the stylk project
(`src/api/client.js` and `src/utils/http.js`): error classification,
retry policy, backoff delay, interceptor chains, the retry loops of the
two HTTP helper modules, and the abort/timeout wiring.

All definitions are shallow embeddings translated directly from the
JavaScript source; machine-level effects (fetch, timers) are modelled by
explicit outcome functions `Nat → Outcome` giving the result of each
network attempt.
-/

namespace Stylk

/-! ### Error taxonomy (`src/api/client.js`, `ErrorType`) -/

/-- The closed set of error kinds of `src/api/client.js` (`ErrorType`). -/
inductive ErrorType where
  | network
  | timeout
  | server
  | auth
  | validation
  | not_found
  | canceled
  | unknown
deriving DecidableEq, Repr

/-- `mapStatusToErrorType` from `src/api/client.js` lines 68-74:
maps an HTTP status code to an error kind. -/
def mapStatusToErrorType (statusCode : Nat) : ErrorType :=
  if 500 ≤ statusCode then ErrorType.server
  else if statusCode = 401 ∨ statusCode = 403 then ErrorType.auth
  else if statusCode = 404 then ErrorType.not_found
  else if statusCode = 422 then ErrorType.validation
  else ErrorType.unknown

/-- The `ApiError` of `src/api/client.js`: carries an error type and the
HTTP status code (0 when no response was received).  The message and
payload fields are irrelevant to the retry logic and omitted. -/
structure ClientApiError where
  etype : ErrorType
  statusCode : Nat
deriving DecidableEq, Repr

/-- `shouldRetry` from `src/api/client.js` lines 83-102. -/
def shouldRetry (error : ClientApiError) (retryCount maxRetries : Nat) : Bool :=
  if maxRetries ≤ retryCount then false
  else if error.etype = ErrorType.auth ∨ error.etype = ErrorType.validation ∨
      error.etype = ErrorType.canceled then false
  else
    decide (error.etype = ErrorType.network ∨ error.etype = ErrorType.timeout ∨
      (error.etype = ErrorType.server ∧ 500 ≤ error.statusCode))

/-! ### Backoff delay (`src/api/client.js`, `getRetryDelay`) -/

/-- The unjittered exponential delay of `getRetryDelay`
(`src/api/client.js` lines 109-116): `min(maxDelay, baseDelay * 2^retryCount)`
with `baseDelay = 300`, `maxDelay = 3000`. -/
def exponentialDelay (retryCount : Nat) : ℚ :=
  min 3000 (300 * 2 ^ retryCount)

/-- `getRetryDelay` from `src/api/client.js` lines 109-122, with the
`Math.random()` draw (a value in `[0, 1)`) passed explicitly:
`exponentialDelay + exponentialDelay * 0.2 * (rand - 0.5)`. -/
def getRetryDelay (retryCount : Nat) (rand : ℚ) : ℚ :=
  exponentialDelay retryCount +
    exponentialDelay retryCount * (2 / 10) * (rand - 1 / 2)

/-! ### Content-type dispatch (`src/utils/http.js` `processResponse`,
`src/api/client.js` response parsing) -/

/-- Chars-level check that `pat` occurs at the start of `l`. -/
def isPrefChars : List Char → List Char → Bool
  | [], _ => true
  | _ :: _, [] => false
  | a :: as, b :: bs => a = b && isPrefChars as bs

/-- Chars-level substring occurrence check. -/
def hasSubChars (pat : List Char) : List Char → Bool
  | [] => pat.isEmpty
  | c :: rest => isPrefChars pat (c :: rest) || hasSubChars pat rest

/-- JavaScript `String.prototype.includes`: `pat` occurs in `s`. -/
def strIncludes (s pat : String) : Bool :=
  hasSubChars pat.data s.data

/-- The parsing strategy / parsed-body shape a response is given. -/
inductive ParsedBody where
  | json
  | text
  | blob
  | rawResponse
deriving DecidableEq, Repr

/-- `processResponse` from `src/utils/http.js` lines 113-130, restricted
to the content-type dispatch (the input is `headers.get('Content-Type') || ''`):
JSON content types are JSON-parsed, `text/plain` and `text/html` are read
as text, `application/octet-stream` as a blob, and any other content type
returns the raw `Response` object unparsed. -/
def processResponse (contentType : String) : ParsedBody :=
  if strIncludes contentType "application/json" then ParsedBody.json
  else if strIncludes contentType "text/plain" || strIncludes contentType "text/html" then
    ParsedBody.text
  else if strIncludes contentType "application/octet-stream" then ParsedBody.blob
  else ParsedBody.rawResponse

/-- The response parsing of `apiRequest` in `src/api/client.js`
lines 228-234: JSON when the (possibly absent) content type includes
`application/json`, text otherwise. -/
def clientParseStrategy (contentType : Option String) : ParsedBody :=
  match contentType with
  | some ct => if strIncludes ct "application/json" then ParsedBody.json else ParsedBody.text
  | none => ParsedBody.text

/-! ### Errors surfaced by `src/utils/http.js` -/

/-- A value thrown out of an attempt of `request` in `src/utils/http.js`
after the `catch` block ran: either an `ApiError` (identified by its
status code) or a raw non-`ApiError` exception (identified by an opaque
code). -/
inductive HErr where
  | api (status : Nat)
  | raw (e : Nat)
deriving DecidableEq, Repr

/-- Whether a surfaced error is an `ApiError` (`error instanceof ApiError`). -/
def HErr.isApi : HErr → Bool
  | HErr.api _ => true
  | HErr.raw _ => false

/-! ### Interceptor chains (`src/utils/http.js` lines 137-186) -/

/-- Outcome of calling one error interceptor on the current error
(`src/utils/http.js` lines 164-182): it may return `null` (error
handled), return an `Error` value (replaces the current error), throw
(caught and logged), or return anything else (ignored). -/
inductive EIResult where
  | handled
  | newError (e : HErr)
  | threw
  | other
deriving DecidableEq, Repr

/-- An error interceptor, as observed by `applyErrorInterceptors`. -/
def ErrInterceptor : Type := HErr → EIResult

/-- `applyErrorInterceptors` from `src/utils/http.js` lines 161-186:
threads the error through the chain; `none` means some interceptor
returned `null` (error handled), `some e` is the final error.  A throwing
interceptor is caught and the chain continues with the current error. -/
def applyErrorInterceptors : List ErrInterceptor → HErr → Option HErr
  | [], e => some e
  | i :: rest, e =>
    match i e with
    | EIResult.handled => none
    | EIResult.newError e' => applyErrorInterceptors rest e'
    | EIResult.threw => applyErrorInterceptors rest e
    | EIResult.other => applyErrorInterceptors rest e

/-- `applyRequestInterceptors` from `src/utils/http.js` lines 137-142:
a plain `reduce` with no exception handling, so an interceptor that
throws (modelled by `Except.error`) aborts the whole chain with that
exception. -/
def applyRequestInterceptors {α ε : Type} (ints : List (α → Except ε α))
    (config : α) : Except ε α :=
  ints.foldl (fun acc i => acc.bind i) (Except.ok config)

/-- `applyResponseInterceptors` from `src/utils/http.js` lines 149-154:
same uncaught `reduce` shape as the request chain. -/
def applyResponseInterceptors {α ε : Type} (ints : List (α → Except ε α))
    (response : α) : Except ε α :=
  ints.foldl (fun acc i => acc.bind i) (Except.ok response)

/-! ### Interceptor registries (`src/utils/http.js` lines 52-93) -/

/-- `addRequestInterceptor` / `addResponseInterceptor` /
`addErrorInterceptor`: `registry.push(interceptor)` appends at the end. -/
def addInterceptor {α : Type} (registry : List α) (i : α) : List α :=
  registry ++ [i]

/-- The remover closure returned by the add functions:
`indexOf` + `splice(index, 1)` removes the first occurrence of the
interceptor and is a no-op when it is absent. -/
def removeInterceptor {α : Type} [DecidableEq α] : List α → α → List α
  | [], _ => []
  | x :: xs, i => if x = i then xs else x :: removeInterceptor xs i

/-! ### The retry loop of `request` in `src/utils/http.js` (lines 237-351) -/

/-- How one attempt inside the `try` of the `request` loop fails:
a non-2xx response with a status, an `AbortError`, a network
`TypeError` (`Failed to fetch`), or any other thrown exception
(e.g. a body-parse failure on a 2xx response). -/
inductive FailKind where
  | httpErr (status : Nat)
  | abortErr
  | netErr
  | otherErr (e : Nat)
deriving DecidableEq, Repr

/-- The outcome of one attempt of the `request` loop. -/
inductive Outcome where
  | ok (data : Nat)
  | fail (f : FailKind)
deriving DecidableEq, Repr

/-- The `catch` block of `request` (`src/utils/http.js` lines 295-317):
an abort becomes `ApiError('Request timed out', 408)`, a network
`TypeError` becomes `ApiError(..., 0)`, the `ApiError` thrown for a
non-2xx response is kept, and any other exception is kept raw
(`else { lastError = error; }`). -/
def catchClassify : FailKind → HErr
  | FailKind.httpErr s => HErr.api s
  | FailKind.abortErr => HErr.api 408
  | FailKind.netErr => HErr.api 0
  | FailKind.otherErr e => HErr.raw e

/-- The `while (attempt <= retries)` loop of `request`
(`src/utils/http.js` lines 241-337), with `rem = retries - attempt`
remaining extra attempts.  Returns the loop result (`Sum.inl data` on a
2xx response, `Sum.inr lastError` otherwise) together with the number of
fetch attempts performed.  Note that the `ApiError` thrown for the
statuses 400/401/403/404/422 is itself caught by the loop's own `catch`,
so every failing attempt — that list included — is retried while
attempts remain. -/
def httpLoop (outcomes : Nat → Outcome) : Nat → Nat → (Nat ⊕ HErr) × Nat
  | 0, attempt =>
    match outcomes attempt with
    | Outcome.ok d => (Sum.inl d, attempt + 1)
    | Outcome.fail f => (Sum.inr (catchClassify f), attempt + 1)
  | Nat.succ rem, attempt =>
    match outcomes attempt with
    | Outcome.ok d => (Sum.inl d, attempt + 1)
    | Outcome.fail _ => httpLoop outcomes rem (attempt + 1)

/-- Final result of `request` in `src/utils/http.js`. -/
inductive HttpFinal where
  | success (data : Nat)
  | handledNull
  | thrown (e : HErr)
deriving DecidableEq, Repr

/-- `request` from `src/utils/http.js` lines 203-352 (retry loop plus the
terminal error-interceptor pass, lines 339-351), returning the final
result and the number of fetch attempts performed. -/
def httpRequest (outcomes : Nat → Outcome) (retries : Nat)
    (errInts : List ErrInterceptor) : HttpFinal × Nat :=
  match httpLoop outcomes retries 0 with
  | (Sum.inl d, n) => (HttpFinal.success d, n)
  | (Sum.inr e, n) =>
    match applyErrorInterceptors errInts e with
    | none => (HttpFinal.handledNull, n)
    | some e' => (HttpFinal.thrown e', n)

/-! ### The retry recursion of `apiRequest` in `src/api/client.js`
(lines 171-341) -/

/-- The outcome of one fetch attempt of `executeRequest`: a response with
a status code, an abort (with the timeout/caller distinction the `catch`
reads off the error message), or a raw thrown exception (fetch network
failure, body-parse failure, ...). -/
inductive COutcome where
  | resp (status : Nat)
  | abort (isTimeout : Bool)
  | exn (e : Nat)
deriving DecidableEq, Repr

/-- A value thrown out of `apiRequest`: an `ApiError` of `client.js`, or
a raw exception (which the code never lets escape). -/
inductive ClientErrVal where
  | capi (e : ClientApiError)
  | craw (e : Nat)
deriving DecidableEq, Repr

/-- Final result of `apiRequest` in `src/api/client.js`. -/
inductive CResult where
  | success (status : Nat)
  | failure (e : ClientErrVal)
deriving DecidableEq, Repr

/-- `executeRequest` from `src/api/client.js` lines 196-337: one attempt,
then on an `ApiError` (non-2xx response) or on a wrapped raw exception a
`shouldRetry`-guarded recursive retry with `currentRetry` incremented;
aborts are thrown without retry.  `fuel` bounds the recursion depth
(`shouldRetry` guarantees at most `maxRetries` recursive calls, so any
`fuel ≥ maxRetries` is exact). -/
def clientExecute (outcomes : Nat → COutcome) (maxRetries : Nat) :
    Nat → Nat → Nat → CResult
  | fuel, attempt, currentRetry =>
    match outcomes attempt with
    | COutcome.resp s =>
      if 200 ≤ s ∧ s ≤ 299 then CResult.success s
      else
        let e : ClientApiError := ⟨mapStatusToErrorType s, s⟩
        if shouldRetry e currentRetry maxRetries then
          match fuel with
          | 0 => CResult.failure (ClientErrVal.capi e)
          | Nat.succ f => clientExecute outcomes maxRetries f (attempt + 1) (currentRetry + 1)
        else CResult.failure (ClientErrVal.capi e)
    | COutcome.abort isTimeout =>
      CResult.failure (ClientErrVal.capi
        ⟨if isTimeout then ErrorType.timeout else ErrorType.canceled, 0⟩)
    | COutcome.exn _ =>
      let e : ClientApiError := ⟨ErrorType.network, 0⟩
      if shouldRetry e currentRetry maxRetries then
        match fuel with
        | 0 => CResult.failure (ClientErrVal.capi e)
        | Nat.succ f => clientExecute outcomes maxRetries f (attempt + 1) (currentRetry + 1)
      else CResult.failure (ClientErrVal.capi e)

/-- `apiRequest` from `src/api/client.js` lines 171-341:
runs `executeRequest` from attempt 0, retry count 0. -/
def apiRequest (outcomes : Nat → COutcome) (retries : Nat) : CResult :=
  clientExecute outcomes retries (retries + 1) 0 0

/-! ### Abort/timeout wiring of `apiRequest`
(`src/api/client.js` lines 186-193 and 266-281) -/

/-- `const requestSignal = signal || controller.signal`
(`src/api/client.js` line 188): the signal actually passed to `fetch`,
with signals identified by opaque ids. -/
def requestSignal (callerSignal : Option Nat) (ownSignal : Nat) : Nat :=
  callerSignal.getD ownSignal

/-- Whether the executor's timeout firing aborts the fetch attempt:
the timeout handler calls `controller.abort('timeout')` on the
executor's own controller (`src/api/client.js` lines 191-193), and an
abort reaches the fetch exactly when the aborted controller's signal is
the one passed to `fetch`. -/
def timeoutAbortsFetch (callerSignal : Option Nat) (ownSignal : Nat) : Bool :=
  ownSignal = requestSignal callerSignal ownSignal

/-- Whether the caller-supplied signal firing aborts the fetch attempt. -/
def callerAbortsFetch (callerSignal : Option Nat) (ownSignal : Nat) : Bool :=
  match callerSignal with
  | some c => c = requestSignal (some c) ownSignal
  | none => false

/-- The abort classification of the `catch` block of `executeRequest`
(`src/api/client.js` lines 267-270): an `AbortError` whose message is
`'timeout'` is classified `timeout`, any other abort `canceled`. -/
def classifyAbort (isTimeout : Bool) : ErrorType :=
  if isTimeout then ErrorType.timeout else ErrorType.canceled

end Stylk

namespace Stylk

/-! ### Theorems: retry policy and status classification -/

theorem exponentialDelay_nonneg (n : Nat) : 0 ≤ exponentialDelay n := by
  unfold exponentialDelay
  have h1 : (0 : ℚ) ≤ 3000 := by norm_num
  have h2 : (0 : ℚ) ≤ 300 * 2 ^ n := by positivity
  exact le_min h1 h2

/-- Claim C7: for every status code of a non-2xx response,
`mapStatusToErrorType` returns exactly one kind and never throws:
`status ≥ 500 ↦ server`, `401/403 ↦ auth`, `404 ↦ not_found`,
`422 ↦ validation`, and every other non-2xx status maps to `unknown`. -/
theorem mapStatusToErrorType_cases (s : Nat) (hnon2xx : s < 200 ∨ 300 ≤ s) :
    (500 ≤ s → mapStatusToErrorType s = ErrorType.server) ∧
    (s = 401 ∨ s = 403 → mapStatusToErrorType s = ErrorType.auth) ∧
    (s = 404 → mapStatusToErrorType s = ErrorType.not_found) ∧
    (s = 422 → mapStatusToErrorType s = ErrorType.validation) ∧
    (s < 500 → s ≠ 401 → s ≠ 403 → s ≠ 404 → s ≠ 422 →
      mapStatusToErrorType s = ErrorType.unknown) := by
  unfold mapStatusToErrorType
  refine ⟨?_, ?_, ?_, ?_, ?_⟩
  · intro h; simp [h]
  · rintro (rfl | rfl) <;> norm_num
  · rintro rfl; norm_num
  · rintro rfl; norm_num
  · intro h5 h401 h403 h404 h422
    rw [if_neg (by omega), if_neg (by tauto), if_neg h404, if_neg h422]

/-- Witness for C7: instantiation at the concrete non-2xx status 404. -/
theorem mapStatusToErrorType_cases_witness :
    (500 ≤ 404 → mapStatusToErrorType 404 = ErrorType.server) ∧
    (404 = 401 ∨ 404 = 403 → mapStatusToErrorType 404 = ErrorType.auth) ∧
    (404 = 404 → mapStatusToErrorType 404 = ErrorType.not_found) ∧
    (404 = 422 → mapStatusToErrorType 404 = ErrorType.validation) ∧
    (404 < 500 → 404 ≠ 401 → 404 ≠ 403 → 404 ≠ 404 → 404 ≠ 422 →
      mapStatusToErrorType 404 = ErrorType.unknown) :=
  mapStatusToErrorType_cases 404 (Or.inr (by norm_num))

/-- Claim C3: `shouldRetry` returns false once the attempt cap is hit;
false for kinds auth/validation/canceled; true below the cap for kinds
network and timeout; true below the cap for server-kind errors as the
classifier produces them (their status is the `≥ 500` response status);
and false for kinds not_found and unknown. -/
theorem shouldRetry_spec :
    (∀ (e : ClientApiError) (c m : Nat), m ≤ c → shouldRetry e c m = false) ∧
    (∀ (e : ClientApiError) (c m : Nat),
      e.etype = ErrorType.auth ∨ e.etype = ErrorType.validation ∨
        e.etype = ErrorType.canceled →
      shouldRetry e c m = false) ∧
    (∀ (e : ClientApiError) (c m : Nat), c < m →
      e.etype = ErrorType.network ∨ e.etype = ErrorType.timeout →
      shouldRetry e c m = true) ∧
    (∀ (s c m : Nat), c < m → mapStatusToErrorType s = ErrorType.server →
      shouldRetry ⟨ErrorType.server, s⟩ c m = true) ∧
    (∀ (e : ClientApiError) (c m : Nat),
      e.etype = ErrorType.not_found ∨ e.etype = ErrorType.unknown →
      shouldRetry e c m = false) := by
  refine ⟨?_, ?_, ?_, ?_, ?_⟩
  · intro e c m h
    unfold shouldRetry
    simp [h]
  · intro e c m h
    unfold shouldRetry
    rcases h with h | h | h <;> simp [h]
  · intro e c m hc h
    unfold shouldRetry
    rw [if_neg (by omega)]
    rcases h with h | h <;> simp [h]
  · intro s c m hc hs
    have h500 : 500 ≤ s := by
      by_contra hlt
      unfold mapStatusToErrorType at hs
      rw [if_neg hlt] at hs
      split at hs
      · exact absurd hs (by simp)
      · split at hs
        · exact absurd hs (by simp)
        · split at hs
          · exact absurd hs (by simp)
          · exact absurd hs (by simp)
    unfold shouldRetry
    rw [if_neg (by omega)]
    simp [h500]
  · intro e c m h
    unfold shouldRetry
    rcases h with h | h <;> simp [h]

/-- Witness for C3: concrete instantiations of every conjunct. -/
theorem shouldRetry_spec_witness :
    shouldRetry ⟨ErrorType.network, 0⟩ 2 2 = false ∧
    shouldRetry ⟨ErrorType.auth, 401⟩ 0 3 = false ∧
    shouldRetry ⟨ErrorType.network, 0⟩ 0 3 = true ∧
    shouldRetry ⟨ErrorType.server, 503⟩ 0 3 = true ∧
    shouldRetry ⟨ErrorType.not_found, 404⟩ 0 3 = false :=
  ⟨shouldRetry_spec.1 ⟨ErrorType.network, 0⟩ 2 2 (by norm_num),
   shouldRetry_spec.2.1 ⟨ErrorType.auth, 401⟩ 0 3 (Or.inl rfl),
   shouldRetry_spec.2.2.1 ⟨ErrorType.network, 0⟩ 0 3 (by norm_num) (Or.inl rfl),
   shouldRetry_spec.2.2.2.1 503 0 3 (by norm_num) (by decide),
   shouldRetry_spec.2.2.2.2 ⟨ErrorType.not_found, 404⟩ 0 3 (Or.inl rfl)⟩

/-! ### Backoff delay bounds -/

/-- Claim C8: for attempts 1..5 and any jitter draw in `[0, 1)`, the
retry delay equals `min(3000, 300·2^n)` scaled by the jitter factor
`1 + 0.2·(rand − 0.5)`, and lies within `[0.8, 1.2] ×
min(3000, 300·2^n)` milliseconds. -/
theorem getRetryDelay_bounds (n : Nat) (hn1 : 1 ≤ n) (hn5 : n ≤ 5)
    (rand : ℚ) (hr0 : 0 ≤ rand) (hr1 : rand < 1) :
    getRetryDelay n rand = exponentialDelay n * (1 + 2 / 10 * (rand - 1 / 2)) ∧
    8 / 10 * exponentialDelay n ≤ getRetryDelay n rand ∧
    getRetryDelay n rand ≤ 12 / 10 * exponentialDelay n := by
  have hd : 0 ≤ exponentialDelay n := exponentialDelay_nonneg n
  unfold getRetryDelay
  refine ⟨by ring, ?_, ?_⟩
  · nlinarith [mul_nonneg hd hr0]
  · nlinarith [mul_nonneg hd (sub_nonneg.mpr hr1.le)]

/-- Witness for C8: attempt 1 with jitter draw 0. -/
theorem getRetryDelay_bounds_witness :
    getRetryDelay 1 0 = exponentialDelay 1 * (1 + 2 / 10 * (0 - 1 / 2)) ∧
    8 / 10 * exponentialDelay 1 ≤ getRetryDelay 1 0 ∧
    getRetryDelay 1 0 ≤ 12 / 10 * exponentialDelay 1 :=
  getRetryDelay_bounds 1 le_rfl (by norm_num) 0 le_rfl (by norm_num)

/-! ### Content-type dispatch -/

/-- Counterexample for C9: an unrecognized content type such as
`application/xml` makes `processResponse` return the raw unparsed
`Response` object, not the body parsed as text. -/
theorem processResponse_xml_not_text :
    processResponse "application/xml" = ParsedBody.rawResponse ∧
    ParsedBody.rawResponse ≠ ParsedBody.text := by
  exact ⟨by decide, by decide⟩

/-- Claim C9 amended: `processResponse` in `http.js` parses JSON content
types as JSON, `text/plain`/`text/html` as text, `application/octet-stream`
as binary, and returns the raw unparsed response for every other content
type; the inline parser of `client.js` parses JSON content types as JSON
and everything else (including an absent content type) as text. -/
theorem contentType_dispatch (ct : String) :
    (strIncludes ct "application/json" = true →
      processResponse ct = ParsedBody.json) ∧
    (strIncludes ct "application/json" = false →
      (strIncludes ct "text/plain" || strIncludes ct "text/html") = true →
      processResponse ct = ParsedBody.text) ∧
    (strIncludes ct "application/json" = false →
      (strIncludes ct "text/plain" || strIncludes ct "text/html") = false →
      strIncludes ct "application/octet-stream" = true →
      processResponse ct = ParsedBody.blob) ∧
    (strIncludes ct "application/json" = false →
      (strIncludes ct "text/plain" || strIncludes ct "text/html") = false →
      strIncludes ct "application/octet-stream" = false →
      processResponse ct = ParsedBody.rawResponse) ∧
    (clientParseStrategy (some ct) =
      if strIncludes ct "application/json" then ParsedBody.json else ParsedBody.text) ∧
    clientParseStrategy none = ParsedBody.text := by
  unfold processResponse clientParseStrategy
  refine ⟨?_, ?_, ?_, ?_, rfl, rfl⟩
  · intro h1; simp [h1]
  · intro h1 h2; simp [h1, h2]
  · intro h1 h2 h3; simp [h1, h2, h3]
  · intro h1 h2 h3; simp [h1, h2, h3]

/-- Witness for C9 (amended): concrete dispatch of a `text/html`
response in both modules. -/
theorem contentType_dispatch_witness :
    processResponse "text/html" = ParsedBody.text ∧
    clientParseStrategy (some "text/html") =
      (if strIncludes "text/html" "application/json" then ParsedBody.json
       else ParsedBody.text) ∧
    clientParseStrategy none = ParsedBody.text :=
  ⟨(contentType_dispatch "text/html").2.1 (by decide) (by decide),
   (contentType_dispatch "text/html").2.2.2.2.1,
   (contentType_dispatch "text/html").2.2.2.2.2⟩

/-! ### Interceptor registries -/

theorem removeInterceptor_of_notMem {α : Type} [DecidableEq α]
    (l : List α) (i : α) (h : i ∉ l) : removeInterceptor l i = l := by
  induction l with
  | nil => rfl
  | cons x xs ih =>
    simp only [List.mem_cons, not_or] at h
    unfold removeInterceptor
    rw [if_neg (fun hx => h.1 hx.symm), ih h.2]

/-- Counterexample for C10: when the same interceptor has been added
twice, invoking the remover a second time removes the second occurrence
as well, so the remover is not idempotent. -/
theorem removeInterceptor_not_idempotent :
    removeInterceptor
        (removeInterceptor (addInterceptor (addInterceptor ([] : List Nat) 0) 0) 0) 0 ≠
      removeInterceptor (addInterceptor (addInterceptor ([] : List Nat) 0) 0) 0 := by
  decide

/-- Claim C10 amended: `add` appends the interceptor at the end of the
registry; the remover removes exactly the first occurrence of that
interceptor, preserving the relative order of all other entries, and is
a no-op when the interceptor is absent — hence invoking the remover a
second time leaves the registry unchanged provided the interceptor no
longer occurs after the first removal (in particular whenever it had
been registered only once). -/
theorem interceptorRegistry_spec :
    (∀ (l : List Nat) (i : Nat), addInterceptor l i = l ++ [i]) ∧
    (∀ (l₁ l₂ : List Nat) (i : Nat), i ∉ l₁ →
      removeInterceptor (l₁ ++ i :: l₂) i = l₁ ++ l₂) ∧
    (∀ (l : List Nat) (i : Nat), i ∉ l → removeInterceptor l i = l) ∧
    (∀ (l : List Nat) (i : Nat), i ∉ removeInterceptor l i →
      removeInterceptor (removeInterceptor l i) i = removeInterceptor l i) := by
  refine ⟨fun l i => rfl, ?_, fun l i h => removeInterceptor_of_notMem l i h,
    fun l i h => removeInterceptor_of_notMem _ i h⟩
  intro l₁ l₂ i h
  induction l₁ with
  | nil =>
    show removeInterceptor (i :: l₂) i = l₂
    unfold removeInterceptor
    rw [if_pos rfl]
  | cons x xs ih =>
    simp only [List.mem_cons, not_or] at h
    show removeInterceptor (x :: (xs ++ i :: l₂)) i = x :: (xs ++ l₂)
    unfold removeInterceptor
    rw [if_neg (fun hx => h.1 hx.symm), ih h.2]

/-- Witness for C10 (amended): a registry `[1, 2]` with interceptor 1
removed once and twice. -/
theorem interceptorRegistry_spec_witness :
    addInterceptor ([2] : List Nat) 1 = [2] ++ [1] ∧
    removeInterceptor (([] : List Nat) ++ 1 :: [2]) 1 = [] ++ [2] ∧
    removeInterceptor ([2] : List Nat) 1 = [2] ∧
    removeInterceptor (removeInterceptor ([1, 2] : List Nat) 1) 1 =
      removeInterceptor ([1, 2] : List Nat) 1 :=
  ⟨interceptorRegistry_spec.1 [2] 1,
   interceptorRegistry_spec.2.1 [] [2] 1 (by decide),
   interceptorRegistry_spec.2.2.1 [2] 1 (by decide),
   interceptorRegistry_spec.2.2.2 [1, 2] 1 (by decide)⟩

/-! ### Error interceptor chain -/

theorem applyErrorInterceptors_cons (i : ErrInterceptor)
    (rest : List ErrInterceptor) (e : HErr) :
    applyErrorInterceptors (i :: rest) e =
      (match i e with
       | EIResult.handled => none
       | EIResult.newError e' => applyErrorInterceptors rest e'
       | EIResult.threw => applyErrorInterceptors rest e
       | EIResult.other => applyErrorInterceptors rest e) := rfl

theorem applyErrorInterceptors_append (xs ys : List ErrInterceptor) (e : HErr) :
    applyErrorInterceptors (xs ++ ys) e =
      (applyErrorInterceptors xs e).bind (fun e' => applyErrorInterceptors ys e') := by
  induction xs generalizing e with
  | nil => rfl
  | cons i rest ih =>
    rw [List.cons_append, applyErrorInterceptors_cons, applyErrorInterceptors_cons]
    cases h : i e <;> first | rfl | exact ih _

/-- Claim C4: if, after threading the error through a prefix of the
chain, an interceptor returns `null`, the whole chain returns `null`
whatever interceptors follow (they are never consulted), and `request`
resolves with `null` instead of throwing. -/
theorem errorInterceptor_handled_stops
    (pre rest : List ErrInterceptor) (i : ErrInterceptor) (e e' : HErr)
    (hpre : applyErrorInterceptors pre e = some e')
    (hi : i e' = EIResult.handled) :
    applyErrorInterceptors (pre ++ i :: rest) e = none ∧
    ∀ (outcomes : Nat → Outcome) (retries n : Nat),
      httpLoop outcomes retries 0 = (Sum.inr e, n) →
      httpRequest outcomes retries (pre ++ i :: rest) = (HttpFinal.handledNull, n) := by
  have hmain : applyErrorInterceptors (pre ++ i :: rest) e = none := by
    rw [applyErrorInterceptors_append, hpre]
    show applyErrorInterceptors (i :: rest) e' = none
    rw [applyErrorInterceptors_cons, hi]
  refine ⟨hmain, ?_⟩
  intro outcomes retries n hloop
  unfold httpRequest
  rw [hloop]
  simp [hmain]

/-- Witness for C4: a chain whose first interceptor handles the error,
followed by another interceptor, applied to the error of a 500 response
with `retries = 0`. -/
theorem errorInterceptor_handled_stops_witness :
    applyErrorInterceptors
        ([] ++ ((fun _ => EIResult.handled) : ErrInterceptor) ::
          [((fun _ => EIResult.other) : ErrInterceptor)]) (HErr.api 500) = none ∧
    httpRequest (fun _ => Outcome.fail (FailKind.httpErr 500)) 0
        ([] ++ ((fun _ => EIResult.handled) : ErrInterceptor) ::
          [((fun _ => EIResult.other) : ErrInterceptor)]) =
      (HttpFinal.handledNull, 1) := by
  have h := errorInterceptor_handled_stops []
    [((fun _ => EIResult.other) : ErrInterceptor)]
    ((fun _ => EIResult.handled) : ErrInterceptor)
    (HErr.api 500) (HErr.api 500) rfl rfl
  exact ⟨h.1, h.2 (fun _ => Outcome.fail (FailKind.httpErr 500)) 0 1 rfl⟩

/-! ### Exceptions thrown by interceptors -/

theorem foldl_bind_error {α ε : Type} (ints : List (α → Except ε α)) (ex : ε) :
    ints.foldl (fun acc i => acc.bind i) (Except.error ex) = Except.error ex := by
  induction ints with
  | nil => rfl
  | cons i rest ih => exact ih

/-- Counterexample for C5: an exception thrown by a request interceptor
propagates out of `applyRequestInterceptors` (there is no `try`/`catch`
around the `reduce`); the chain does not continue with the value the
throwing interceptor received. -/
theorem requestInterceptor_exception_propagates :
    applyRequestInterceptors [fun _ => (Except.error 3 : Except Nat Nat)] 7 =
      Except.error 3 ∧
    (Except.error 3 : Except Nat Nat) ≠ Except.ok 7 := by
  exact ⟨rfl, by simp⟩

/-- Claim C5 amended: only the error interceptor chain catches an
exception thrown by one of its interceptors and continues with the value
that interceptor received; an exception thrown by a request or response
interceptor is not caught — it aborts the chain and propagates. -/
theorem interceptorException_semantics :
    (∀ (i : ErrInterceptor) (rest : List ErrInterceptor) (e : HErr),
      i e = EIResult.threw →
      applyErrorInterceptors (i :: rest) e = applyErrorInterceptors rest e) ∧
    (∀ (i : Nat → Except Nat Nat) (rest : List (Nat → Except Nat Nat)) (c ex : Nat),
      i c = Except.error ex →
      applyRequestInterceptors (i :: rest) c = Except.error ex) ∧
    (∀ (i : Nat → Except Nat Nat) (rest : List (Nat → Except Nat Nat)) (r ex : Nat),
      i r = Except.error ex →
      applyResponseInterceptors (i :: rest) r = Except.error ex) := by
  refine ⟨?_, ?_, ?_⟩
  · intro i rest e h
    rw [applyErrorInterceptors_cons, h]
  · intro i rest c ex h
    unfold applyRequestInterceptors
    show List.foldl _ ((Except.ok c).bind i) rest = _
    have hstep : (Except.ok c : Except Nat Nat).bind i = Except.error ex := by
      show i c = Except.error ex
      exact h
    rw [hstep]
    exact foldl_bind_error rest ex
  · intro i rest r ex h
    unfold applyResponseInterceptors
    show List.foldl _ ((Except.ok r).bind i) rest = _
    have hstep : (Except.ok r : Except Nat Nat).bind i = Except.error ex := by
      show i r = Except.error ex
      exact h
    rw [hstep]
    exact foldl_bind_error rest ex

/-- Witness for C5 (amended): concrete throwing interceptors in each of
the three chains. -/
theorem interceptorException_semantics_witness :
    applyErrorInterceptors (((fun _ => EIResult.threw) : ErrInterceptor) :: [])
        (HErr.api 0) =
      applyErrorInterceptors [] (HErr.api 0) ∧
    applyRequestInterceptors ((fun _ => (Except.error 5 : Except Nat Nat)) :: []) 1 =
      Except.error 5 ∧
    applyResponseInterceptors ((fun _ => (Except.error 6 : Except Nat Nat)) :: []) 2 =
      Except.error 6 :=
  ⟨interceptorException_semantics.1 (fun _ => EIResult.threw) [] (HErr.api 0) rfl,
   interceptorException_semantics.2.1 (fun _ => Except.error 5) [] 1 5 rfl,
   interceptorException_semantics.2.2 (fun _ => Except.error 6) [] 2 6 rfl⟩

/-! ### The retry loops at the failing inputs -/

/-- Claim C1 (code bug): in `http.js`, the `ApiError` thrown for a 400
response lands in the loop's own `catch`, so with `retries = 1` a request
answered 400 performs a second fetch attempt before surfacing the error —
while `shouldRetry` in `client.js` indeed refuses to retry the
400-classified error. -/
theorem http_terminal_status_retried :
    httpRequest (fun _ => Outcome.fail (FailKind.httpErr 400)) 1 [] =
      (HttpFinal.thrown (HErr.api 400), 2) ∧
    shouldRetry ⟨mapStatusToErrorType 400, 400⟩ 0 1 = false := by
  exact ⟨rfl, by decide⟩

/-- Counterexample for C2: an attempt that fails with an exception that
is neither an abort nor a network `TypeError` (e.g. a body-parse failure
on a 2xx response) is stored raw by `else { lastError = error; }` and
surfaced to the interceptors and the caller as a non-`ApiError`. -/
theorem http_raw_error_surfaced :
    httpRequest (fun _ => Outcome.fail (FailKind.otherErr 7)) 0 [] =
      (HttpFinal.thrown (HErr.raw 7), 1) ∧
    (HErr.raw 7).isApi = false := by
  exact ⟨rfl, rfl⟩

/-- Claim C2 amended: every failure surfaced by `apiRequest` in
`client.js` is an `ApiError`, for every possible sequence of attempt
outcomes; in `http.js`, the error surfaced by the retry loop is an
`ApiError` provided no attempt fails with an exception other than an
abort, a network `TypeError`, or a non-2xx response. -/
theorem classified_error_invariant :
    (∀ (outcomes : Nat → COutcome) (maxRetries fuel attempt cur : Nat),
      (∃ s, clientExecute outcomes maxRetries fuel attempt cur = CResult.success s) ∨
      (∃ a, clientExecute outcomes maxRetries fuel attempt cur =
        CResult.failure (ClientErrVal.capi a))) ∧
    (∀ (outcomes : Nat → Outcome),
      (∀ a x, outcomes a ≠ Outcome.fail (FailKind.otherErr x)) →
      ∀ (rem attempt n : Nat) (e : HErr),
        httpLoop outcomes rem attempt = (Sum.inr e, n) → e.isApi = true) := by
  constructor
  · intro outcomes maxRetries fuel
    induction fuel with
    | zero =>
      intro attempt cur
      unfold clientExecute
      cases outcomes attempt with
      | resp s =>
        dsimp only
        split
        · exact Or.inl ⟨_, rfl⟩
        · split
          · exact Or.inr ⟨_, rfl⟩
          · exact Or.inr ⟨_, rfl⟩
      | abort isTimeout =>
        dsimp only
        exact Or.inr ⟨_, rfl⟩
      | exn x =>
        dsimp only
        split
        · exact Or.inr ⟨_, rfl⟩
        · exact Or.inr ⟨_, rfl⟩
    | succ f ih =>
      intro attempt cur
      unfold clientExecute
      cases outcomes attempt with
      | resp s =>
        dsimp only
        split
        · exact Or.inl ⟨_, rfl⟩
        · split
          · exact ih (attempt + 1) (cur + 1)
          · exact Or.inr ⟨_, rfl⟩
      | abort isTimeout =>
        dsimp only
        exact Or.inr ⟨_, rfl⟩
      | exn x =>
        dsimp only
        split
        · exact ih (attempt + 1) (cur + 1)
        · exact Or.inr ⟨_, rfl⟩
  · intro outcomes hno rem
    induction rem with
    | zero =>
      intro attempt n e h
      unfold httpLoop at h
      cases houtcome : outcomes attempt with
      | ok d => rw [houtcome] at h; simp at h
      | fail f =>
        rw [houtcome] at h
        simp only [Prod.mk.injEq, Sum.inr.injEq] at h
        cases f with
        | httpErr s => rw [← h.1]; rfl
        | abortErr => rw [← h.1]; rfl
        | netErr => rw [← h.1]; rfl
        | otherErr x => exact absurd houtcome (hno attempt x)
    | succ r ih =>
      intro attempt n e h
      unfold httpLoop at h
      cases houtcome : outcomes attempt with
      | ok d => rw [houtcome] at h; simp at h
      | fail f => rw [houtcome] at h; exact ih (attempt + 1) n e h

/-- Witness for C2 (amended): a 500-response outcome sequence in each
module. -/
theorem classified_error_invariant_witness :
    ((∃ s, clientExecute (fun _ => COutcome.resp 500) 1 2 0 0 = CResult.success s) ∨
     (∃ a, clientExecute (fun _ => COutcome.resp 500) 1 2 0 0 =
       CResult.failure (ClientErrVal.capi a))) ∧
    (HErr.api 500).isApi = true :=
  ⟨classified_error_invariant.1 (fun _ => COutcome.resp 500) 1 2 0 0,
   classified_error_invariant.2 (fun _ => Outcome.fail (FailKind.httpErr 500))
     (by intro a x; simp) 0 0 1 (HErr.api 500) rfl⟩

/-! ### Abort/timeout wiring -/

/-- Claim C6 (code bug): when the caller supplies their own signal,
`fetch` is given `signal || controller.signal` — the caller's signal —
so the executor's timeout abort (which targets the executor's own
controller) never aborts the attempt; without a caller signal the
timeout abort does work, the caller's abort works when supplied, and the
`catch` classifies a timeout abort as `timeout` and any other abort as
`canceled`. -/
theorem timeout_abort_wiring :
    timeoutAbortsFetch (some 1) 0 = false ∧
    timeoutAbortsFetch none 0 = true ∧
    callerAbortsFetch (some 1) 0 = true ∧
    classifyAbort true = ErrorType.timeout ∧
    classifyAbort false = ErrorType.canceled := by
  exact ⟨by decide, by decide, by decide, rfl, rfl⟩

end Stylk
